import Mathlib

/-!
Verification of the order/cart/payment state machine of the `market` Django app
(`market/views.py`, `market/serializer.py`).  Entities are embedded as Lean
structures, the database as lists of rows, and each HTTP action as a pure
function from the relevant state to a result and an updated state.  Model
methods that live in the repository's `models.py` (which is not part of the
sources given here) are modelled from the specification and marked as such in
their doc comments.
-/

namespace Relojes

/-- A product row: `Product` in the data model.  `stock` is the base stock
count, `stockVendido` the sold counter, `stockIlimitado` the unlimited flag.
Prices are integers (the claims never divide). -/
structure Product where
  id : Nat
  nombre : String
  precio : Int
  precioFinal : Int
  stock : Int
  stockVendido : Int
  stockIlimitado : Bool
deriving DecidableEq

/-- A cart line: `CartItem`, a (product, quantity) pair of the user's cart. -/
structure CartItem where
  productoId : Nat
  cantidad : Int
deriving DecidableEq

/-- An order row: `Order` (`estado`, `total`, `direccion_envio`). -/
structure Order where
  id : Nat
  estado : String
  total : Int
  direccion : String
deriving DecidableEq

/-- An order line: `OrderDetail` (`pedido`, `producto`, `cantidad`, `subtotal`). -/
structure OrderDetail where
  id : Nat
  pedidoId : Nat
  productoId : Nat
  cantidad : Int
  subtotal : Int
deriving DecidableEq

/-- A payment row: `Pay` (`pedido`, `metodo`, `estado`, `monto_pagado`,
`comprobante_archivo`, `comprobante_url`).  The url is `""` when absent,
matching the serializer's `default=''`. -/
structure Pay where
  id : Nat
  pedidoId : Nat
  metodo : String
  estado : String
  montoPagado : Int
  comprobanteArchivo : Option String
  comprobanteUrl : String
deriving DecidableEq

/-- A shipment row: `Shipment` (`pedido`, `estado`). -/
structure Shipment where
  id : Nat
  pedidoId : Nat
  estado : String
deriving DecidableEq

/-- The typed failures the view actions and serializer validations return
(each constructor corresponds to one error `Response`/`ValidationError`
return site in the source). -/
inductive ApiError where
  | emptyCart
  | insufficientStock (nombre : String)
  | orderLocked (estado : String)
  | yaCancelada
  | noCancelable (estado : String)
  | detalleNoPertenece (id : Nat)
  | detalleNotFound
  | invalidMetadata
  | forbiddenSensitiveData
  | pedidoYaPagado
  | duplicateOpenPayment
  | pedidoNotFound
  | pagoNotFound
  | noPagable (estado : String)
  | soloPendienteORevision
  | soloPendiente
  | soloEnRevision
  | faltaComprobante
  | estadoEnvioInvalido
  | envioNoCreable (estado : String)
deriving DecidableEq

/-- `Product.objects.get(id=pid)` / FK dereference on the product table. -/
def findProduct (ps : List Product) (pid : Nat) : Option Product :=
  ps.find? (fun p => p.id == pid)

/-- `producto.save()`: persist a modification of the row with key `pid`. -/
def updateProduct (ps : List Product) (pid : Nat) (f : Product → Product) : List Product :=
  ps.map (fun p => if p.id == pid then f p else p)

/-- `Order.objects.get(id=oid)` / FK dereference on the order table. -/
def findOrder (orders : List Order) (oid : Nat) : Option Order :=
  orders.find? (fun o => o.id == oid)

/-- `pedido.save()`: persist a modification of the order row with key `oid`. -/
def updateOrder (orders : List Order) (oid : Nat) (f : Order → Order) : List Order :=
  orders.map (fun o => if o.id == oid then f o else o)

/-- `Pay.objects.get(id=pid)`. -/
def findPay (pays : List Pay) (pid : Nat) : Option Pay :=
  pays.find? (fun p => p.id == pid)

/-- `pago.save()`: persist a modification of the payment row with key `pid`. -/
def updatePay (pays : List Pay) (pid : Nat) (f : Pay → Pay) : List Pay :=
  pays.map (fun p => if p.id == pid then f p else p)

/-- Modelled from the spec: `Product.stock_disponible` from the missing
`models.py` — `available = unlimited ? ∞ : (base_stock - sold)`.  Returns
`none` for "infinite". -/
def stockDisponible (p : Product) : Option Int :=
  if p.stockIlimitado then none else some (p.stock - p.stockVendido)

/-- The comparison `cantidad > producto.stock_disponible` used by the two
stock checks of checkout; never true for an unlimited product. -/
def cantidadExcede (cantidad : Int) (p : Product) : Bool :=
  match stockDisponible p with
  | none => false
  | some d => cantidad > d

/-- Modelled from the spec: `Cart.total()` from the missing `models.py` —
the cart total is computed over current items at the product's current
final price (§4.2: "line price = product's *current* final price"). -/
def cartTotal (ps : List Product) (items : List CartItem) : Int :=
  items.foldl
    (fun acc it =>
      acc + (match findProduct ps it.productoId with
             | some p => it.cantidad * p.precioFinal
             | none => 0))
    0

/-! ## Order aggregate: cancel, perform_update, remove_detail -/

/-- The mutable order-side state an `OrderViewSet` action touches: the order
row itself, its details, and the product table. -/
structure OrderState where
  pedido : Order
  detalles : List OrderDetail
  products : List Product
deriving DecidableEq

/-- Result of the `cancel` action (`OrderViewSet.cancel`). -/
inductive CancelResult where
  | yaCancelada
  | noCancelable (estado : String)
  | ok
deriving DecidableEq

/-- `OrderViewSet.cancel`: refuses an already cancelled order, refuses any
state outside `{pendiente, procesando}`, otherwise sets `estado = cancelado`.
It touches nothing but the order's `estado` (in particular no stock). -/
def cancel (s : OrderState) : CancelResult × OrderState :=
  if s.pedido.estado == "cancelado" then
    (.yaCancelada, s)
  else if !(["pendiente", "procesando"].contains s.pedido.estado) then
    (.noCancelable s.pedido.estado, s)
  else
    (.ok, { s with pedido := { s.pedido with estado := "cancelado" } })

/-- Modelled from the spec: `Order.total_update()` from the missing
`models.py` — "recalculateTotal(order): total = sum of current detail
subtotals" (§4.3). -/
def totalUpdate (s : OrderState) : OrderState :=
  { s with pedido :=
      { s.pedido with total := s.detalles.foldl (fun a d => a + d.subtotal) 0 } }

/-- One entry of the `detalles` list of an update request
(`producto`, `cantidad` (default 1 already applied), optional `id`). -/
structure DetalleData where
  producto : Option Nat
  cantidad : Int
  detalleId : Option Nat
deriving DecidableEq

/-- `OrderViewSet._process_order_details`: per entry, a missing `producto`
key or an unknown product is skipped; an `id` must name a detail of this
order; a quantity change returns the old stock and re-takes the new one,
failing when `stock < cantidad`; without `id` a new detail is created after
a stock check.  An error aborts the loop, keeping the rows already saved
(there is no enclosing transaction); the in-memory `producto.stock +=`
preceding a raised error is never saved.  The subtotal of a created detail
is modelled from the spec (§3: subtotal = quantity × unit price at line
creation); a quantity update only rewrites `cantidad`, as the source does. -/
def processOrderDetails : OrderState → List DetalleData → Option ApiError × OrderState
  | s, [] => (none, s)
  | s, d :: rest =>
    match d.producto with
    | none => processOrderDetails s rest
    | some pid =>
      match findProduct s.products pid with
      | none => processOrderDetails s rest
      | some producto =>
        match d.detalleId with
        | some did =>
          match s.detalles.find? (fun det => det.id == did && det.pedidoId == s.pedido.id) with
          | none => (some (.detalleNoPertenece did), s)
          | some detalle =>
            if detalle.cantidad != d.cantidad then
              if producto.stock + detalle.cantidad < d.cantidad then
                (some (.insufficientStock producto.nombre), s)
              else
                let ps1 := updateProduct s.products pid
                  (fun p => { p with stock := p.stock + detalle.cantidad - d.cantidad })
                let dets1 := s.detalles.map (fun det =>
                  if det.id == did && det.pedidoId == s.pedido.id then
                    { det with cantidad := d.cantidad }
                  else det)
                processOrderDetails { s with products := ps1, detalles := dets1 } rest
            else
              processOrderDetails s rest
        | none =>
          if producto.stock < d.cantidad then
            (some (.insufficientStock producto.nombre), s)
          else
            let nuevo : OrderDetail :=
              { id := 0, pedidoId := s.pedido.id, productoId := pid,
                cantidad := d.cantidad, subtotal := d.cantidad * producto.precio }
            processOrderDetails { s with detalles := s.detalles ++ [nuevo] } rest

/-- The writable basic fields an order update may carry. -/
structure OrderChanges where
  estado : Option String
  direccion : Option String
deriving DecidableEq

/-- `serializer.save()` on the basic order fields. -/
def applyChanges (o : Order) (c : OrderChanges) : Order :=
  { o with estado := c.estado.getD o.estado,
           direccion := c.direccion.getD o.direccion }

/-- `OrderViewSet.perform_update`: a terminal order (`entregado`/`cancelado`)
is rejected before anything is saved; otherwise the basic fields are saved,
the `detalles` payload is processed, and on success the total is
recalculated (an error inside the detail loop skips the recalculation, as
the raised `ValidationError` does in the source). -/
def performUpdate (s : OrderState) (c : OrderChanges) (detallesData : List DetalleData) :
    Option ApiError × OrderState :=
  if s.pedido.estado == "entregado" || s.pedido.estado == "cancelado" then
    (some (.orderLocked s.pedido.estado), s)
  else
    let s1 := { s with pedido := applyChanges s.pedido c }
    match processOrderDetails s1 detallesData with
    | (some e, s2) => (some e, s2)
    | (none, s2) => (none, totalUpdate s2)

/-- `OrderViewSet.remove_detail`: a terminal order is rejected; otherwise the
named detail of this order (404 when absent) has its stock returned to the
product, is deleted, and the total is recalculated. -/
def removeDetail (s : OrderState) (detailId : Nat) : Option ApiError × OrderState :=
  if s.pedido.estado == "entregado" || s.pedido.estado == "cancelado" then
    (some (.orderLocked s.pedido.estado), s)
  else
    match s.detalles.find? (fun det => det.id == detailId && det.pedidoId == s.pedido.id) with
    | none => (some .detalleNotFound, s)
    | some detalle =>
      let ps1 := updateProduct s.products detalle.productoId
        (fun p => { p with stock := p.stock + detalle.cantidad })
      let dets1 :=
        s.detalles.filter (fun det => !(det.id == detailId && det.pedidoId == s.pedido.id))
      (none, totalUpdate { s with products := ps1, detalles := dets1 })

/-! ## Cart aggregate: checkout -/

/-- The state a checkout touches: the product table, the user's cart items,
and the order/detail tables. -/
structure StoreState where
  products : List Product
  items : List CartItem
  orders : List Order
  details : List OrderDetail
deriving DecidableEq

/-- Result of `CartViewSet.checkout`. -/
inductive CheckoutResult where
  | failure (e : ApiError)
  | created (pedidoId : Nat)
deriving DecidableEq

/-- The first-pass stock validation of checkout: the name of the first cart
item whose quantity exceeds its product's available stock, if any. -/
def firstViolation (ps : List Product) : List CartItem → Option String
  | [] => none
  | it :: rest =>
    match findProduct ps it.productoId with
    | some p => if cantidadExcede it.cantidad p then some p.nombre else firstViolation ps rest
    | none => firstViolation ps rest

/-- The second pass of checkout.  `interf i` is the concurrent modification
of the product table (by other requests) that lands before the `i`-th item's
`refresh_from_db`; the sequential case is `interf = fun _ ps => ps`.  Per
item: re-fetch the product, re-check availability — on failure return the
offending product's name together with the product table as already written
(earlier items' sold-counter increments included) — otherwise record the
order detail (subtotal = cantidad × precio) and save the incremented
`stock_vendido`.  A dangling product reference is skipped (FK integrity makes
this branch unreachable). -/
def secondPass (pedidoId : Nat) (interf : Nat → List Product → List Product) :
    List CartItem → Nat → List Product → List OrderDetail →
    Option String × List Product × List OrderDetail
  | [], _, ps, ds => (none, ps, ds)
  | item :: rest, i, ps, ds =>
    let ps1 := interf i ps
    match findProduct ps1 item.productoId with
    | none => secondPass pedidoId interf rest (i + 1) ps1 ds
    | some producto =>
      if cantidadExcede item.cantidad producto then
        (some producto.nombre, ps1, ds)
      else
        let d : OrderDetail :=
          { id := 0, pedidoId := pedidoId, productoId := item.productoId,
            cantidad := item.cantidad, subtotal := item.cantidad * producto.precio }
        let ps2 := updateProduct ps1 item.productoId
          (fun p => { p with stockVendido := p.stockVendido + item.cantidad })
        secondPass pedidoId interf rest (i + 1) ps2 (ds ++ [d])

/-- `CartViewSet.checkout`: empty cart fails; first pass validates every item
against available stock and fails naming the offending product, mutating
nothing; then an order in `pendiente` with total = cart total is created and
the second pass runs (see `secondPass`).  On a second-pass failure
`pedido.delete()` removes the order and cascades its details (per the data
model, orders own their details), so the order and detail tables are as
before — but the product table keeps whatever the second pass already saved.
On success the cart is cleared (`carrito.limpiar()`, modelled from the spec:
clear deletes all items). -/
def checkout (s : StoreState) (newId : Nat) (direccion : String)
    (interf : Nat → List Product → List Product) : CheckoutResult × StoreState :=
  if s.items.length == 0 then
    (.failure .emptyCart, s)
  else
    match firstViolation s.products s.items with
    | some nombre => (.failure (.insufficientStock nombre), s)
    | none =>
      let pedido : Order :=
        { id := newId, estado := "pendiente",
          total := cartTotal s.products s.items, direccion := direccion }
      match secondPass newId interf s.items 0 s.products [] with
      | (some nombre, ps, _) =>
        (.failure (.insufficientStock nombre), { s with products := ps })
      | (none, ps, ds) =>
        (.created newId,
          { products := ps, items := [], orders := s.orders ++ [pedido],
            details := s.details ++ ds })

/-- No concurrent interference: every `refresh_from_db` sees the table as the
checkout itself left it. -/
def interfNone : Nat → List Product → List Product := fun _ ps => ps

/-- Products for the concrete checkout scenarios. -/
def prodA : Product :=
  { id := 1, nombre := "A", precio := 10, precioFinal := 10,
    stock := 5, stockVendido := 0, stockIlimitado := false }

/-- Second product for the concrete checkout scenarios. -/
def prodB : Product :=
  { id := 2, nombre := "B", precio := 20, precioFinal := 20,
    stock := 5, stockVendido := 0, stockIlimitado := false }

/-- An empty cart. -/
def exCartEmpty : StoreState :=
  { products := [prodA, prodB], items := [], orders := [], details := [] }

/-- A cart asking 6 units of a product with 5 available (spec scenario). -/
def exCartOver : StoreState :=
  { products := [prodA, prodB], items := [{ productoId := 1, cantidad := 6 }],
    orders := [], details := [] }

/-- A cart asking 3 units of a product with 5 available (spec scenario). -/
def exCartOk : StoreState :=
  { products := [prodA, prodB], items := [{ productoId := 1, cantidad := 3 }],
    orders := [], details := [] }

/-- A two-item cart that passes the first pass: 2 units of A, 5 units of B. -/
def exCartTwo : StoreState :=
  { products := [prodA, prodB],
    items := [{ productoId := 1, cantidad := 2 }, { productoId := 2, cantidad := 5 }],
    orders := [], details := [] }

/-- A concurrent checkout buys 3 units of B between the first pass and the
second-pass re-fetch of item 1 (product B), so the re-check of B fails. -/
def interfRace : Nat → List Product → List Product := fun i ps =>
  if i == 1 then
    updateProduct ps 2 (fun p => { p with stockVendido := p.stockVendido + 3 })
  else ps

/-! ## Payment state machine -/

/-- The state the payment endpoints touch: the payment table and the order
table. -/
structure PayState where
  pays : List Pay
  orders : List Order
deriving DecidableEq

/-- The `metadata` attribute as it reaches `PaySerializer.validate`: either
already a dict (only its keys matter to the validation) or a raw string
(multipart requests). -/
inductive MetaIn where
  | dict (keys : List String)
  | raw (s : String)
deriving DecidableEq

/-- Python truthiness of the metadata value, used by
`attrs.get('metadata') or \x7b\x7d`: the empty dict and the empty string are
falsy. -/
def metaFalsy : MetaIn → Bool
  | .dict ks => ks.isEmpty
  | .raw s => s == ""

/-- `metadata = attrs.get('metadata') or \x7b\x7d`: a falsy metadata value is
replaced by the empty dict — in particular a raw empty string is never
handed to the JSON decoder. -/
def normalizeMeta (m : MetaIn) : MetaIn :=
  if metaFalsy m then .dict [] else m

/-- The decode step of `PaySerializer.validate`: a raw string is decoded
with `json.loads` (the environment's decoder, passed as `decode`, returning
the decoded dict's keys or `none` on failure); a dict passes through. -/
def decodeMeta (decode : String → Option (List String)) (m : MetaIn) :
    Option (List String) :=
  match normalizeMeta m with
  | .dict ks => some ks
  | .raw s => decode s

/-- The sensitive card fields rejected for `tarjeta` payments. -/
def forbiddenKeys : List String :=
  ["number", "card_number", "cvv", "cvc", "exp", "exp_month", "exp_year"]

/-- `any(k in metadata for k in forbidden)`. -/
def hasForbidden (ks : List String) : Bool :=
  forbiddenKeys.any (fun k => ks.contains k)

/-- The payment open states; a payment in one of them is an "open" payment. -/
def openStates : List String := ["pendiente", "en_revision"]

/-- `pedido.pagos.filter(estado__in=['pendiente','en_revision']).exists()`. -/
def hasOpenPay (pays : List Pay) (pedidoId : Nat) : Bool :=
  pays.any (fun p => p.pedidoId == pedidoId && openStates.contains p.estado)

/-- The validated attributes of a payment-create request.  `estado` is a
writable field with default `pendiente` (`none` = not supplied);
`monto_pagado` is read-only and therefore never among the inputs. -/
structure PayAttrs where
  pedidoId : Nat
  metodo : String
  metadata : MetaIn
  estado : Option String
  comprobanteArchivo : Option String
  comprobanteUrl : String
deriving DecidableEq

/-- `PaySerializer.validate`: decode a raw metadata string (failure is the
invalid-metadata error); reject sensitive card fields for `tarjeta`;
then, for the referenced order (resolved by the framework before
validation), reject a `pagado` order and reject a second open payment.
Returns the decoded metadata keys. -/
def payValidate (decode : String → Option (List String)) (s : PayState)
    (attrs : PayAttrs) : Except ApiError (List String) :=
  match decodeMeta decode attrs.metadata with
  | none => .error .invalidMetadata
  | some ks =>
    if attrs.metodo == "tarjeta" && hasForbidden ks then
      .error .forbiddenSensitiveData
    else
      match findOrder s.orders attrs.pedidoId with
      | none => .error .pedidoNotFound
      | some pedido =>
        if pedido.estado == "pagado" then .error .pedidoYaPagado
        else if hasOpenPay s.pays attrs.pedidoId then .error .duplicateOpenPayment
        else .ok ks

/-- `PayViewSet.perform_create` + `PaySerializer.create`: after validation,
the order must be `pendiente` (the ownership check is authorization,
outside this model); the saved payment takes `monto_pagado = pedido.total`
(the field is read-only, so `validated_data` never carries it), and arrives
in `en_revision` when a proof (file, or non-empty url) was supplied,
otherwise in the requested `estado` (default `pendiente`). -/
def createPay (decode : String → Option (List String)) (s : PayState)
    (attrs : PayAttrs) (newId : Nat) : Except ApiError PayState :=
  match payValidate decode s attrs with
  | .error e => .error e
  | .ok _ =>
    match findOrder s.orders attrs.pedidoId with
    | none => .error .pedidoNotFound
    | some pedido =>
      if !(pedido.estado == "pendiente") then .error (.noPagable pedido.estado)
      else
        let estadoBase := attrs.estado.getD "pendiente"
        let conProof := attrs.comprobanteArchivo.isSome || attrs.comprobanteUrl != ""
        let nuevo : Pay :=
          { id := newId, pedidoId := attrs.pedidoId, metodo := attrs.metodo,
            estado := if conProof then "en_revision" else estadoBase,
            montoPagado := pedido.total,
            comprobanteArchivo := attrs.comprobanteArchivo,
            comprobanteUrl := attrs.comprobanteUrl }
        .ok { s with pays := s.pays ++ [nuevo] }

/-- Modelled from the spec: `Pay.complete()` from the missing `models.py` —
moves the payment to the terminal `completado` state. -/
def payComplete (p : Pay) : Pay := { p with estado := "completado" }

/-- Modelled from the spec: `Pay.fail()` from the missing `models.py` —
moves the payment to the terminal `fallido` state. -/
def payFail (p : Pay) : Pay := { p with estado := "fallido" }

/-- `PayViewSet.complete`: only a `pendiente` or `en_revision` payment can
be completed (the role check is authorization, outside this model). -/
def completeAction (s : PayState) (payId : Nat) : Option ApiError × PayState :=
  match findPay s.pays payId with
  | none => (some .pagoNotFound, s)
  | some pago =>
    if !(openStates.contains pago.estado) then (some .soloPendienteORevision, s)
    else (none, { s with pays := updatePay s.pays payId payComplete })

/-- `PayViewSet.fail`: only a `pendiente` or `en_revision` payment can be
failed; the order is not touched. -/
def failAction (s : PayState) (payId : Nat) : Option ApiError × PayState :=
  match findPay s.pays payId with
  | none => (some .pagoNotFound, s)
  | some pago =>
    if !(openStates.contains pago.estado) then (some .soloPendienteORevision, s)
    else (none, { s with pays := updatePay s.pays payId payFail })

/-- `PayViewSet.reject`: only an `en_revision` payment can be rejected; the
payment is failed and the order is demoted back to `pendiente` when it was
`en_revision`. -/
def rejectAction (s : PayState) (payId : Nat) : Option ApiError × PayState :=
  match findPay s.pays payId with
  | none => (some .pagoNotFound, s)
  | some pago =>
    if !(pago.estado == "en_revision") then (some .soloEnRevision, s)
    else
      let s1 : PayState := { s with pays := updatePay s.pays payId payFail }
      match findOrder s1.orders pago.pedidoId with
      | some pedido =>
        if pedido.estado == "en_revision" then
          let ords := updateOrder s1.orders pago.pedidoId
            (fun o => { o with estado := "pendiente" })
          (none, { s1 with orders := ords })
        else (none, s1)
      | none => (none, s1)

/-- The per-payment write of `PayViewSet.proof`: attach the file and/or the
url and move the payment to `en_revision`. -/
def submitProofUpdate (file : Option String) (url : String) (p : Pay) : Pay :=
  let p1 := match file with
            | some f => { p with comprobanteArchivo := some f }
            | none => p
  let p2 := if url != "" then { p1 with comprobanteUrl := url } else p1
  { p2 with estado := "en_revision" }

/-- `PayViewSet.proof`: only a `pendiente` payment may receive a proof, and
a file or a url must be supplied; the payment moves to `en_revision` and the
parent order, when `pendiente`, is promoted to `en_revision` as well. -/
def proofAction (s : PayState) (payId : Nat) (file : Option String) (url : String) :
    Option ApiError × PayState :=
  match findPay s.pays payId with
  | none => (some .pagoNotFound, s)
  | some pago =>
    if !(pago.estado == "pendiente") then (some .soloPendiente, s)
    else if file.isNone && url == "" then (some .faltaComprobante, s)
    else
      let s1 : PayState := { s with pays := updatePay s.pays payId (submitProofUpdate file url) }
      match findOrder s1.orders pago.pedidoId with
      | some pedido =>
        if pedido.estado == "pendiente" then
          let ords := updateOrder s1.orders pago.pedidoId
            (fun o => { o with estado := "en_revision" })
          (none, { s1 with orders := ords })
        else (none, s1)
      | none => (none, s1)

/-- The operations of the C3 invariant: payment creation, completion and
failure, in any order. -/
inductive PayOp where
  | create (attrs : PayAttrs) (newId : Nat)
  | complete (payId : Nat)
  | fail (payId : Nat)

/-- Apply one payment operation; a rejected operation leaves the state
unchanged (the error becomes the HTTP response). -/
def applyPayOp (decode : String → Option (List String)) (s : PayState) :
    PayOp → PayState
  | .create attrs newId =>
    match createPay decode s attrs newId with
    | .ok s1 => s1
    | .error _ => s
  | .complete payId => (completeAction s payId).2
  | .fail payId => (failAction s payId).2

/-- Run a sequence of payment operations. -/
def runPayOps (decode : String → Option (List String)) :
    PayState → List PayOp → PayState
  | s, [] => s
  | s, op :: rest => runPayOps decode (applyPayOp decode s op) rest

/-- Whether a payment is an open payment of order `pedidoId`. -/
def isOpenFor (pedidoId : Nat) (p : Pay) : Bool :=
  p.pedidoId == pedidoId && openStates.contains p.estado

/-- The number of open payments attached to order `pedidoId`. -/
def openCount (s : PayState) (pedidoId : Nat) : Nat :=
  (s.pays.filter (isOpenFor pedidoId)).length

/-- A JSON decoder that always fails — the behavior of `json.loads` on the
empty string (and any other non-JSON input). -/
def decodeFailing : String → Option (List String) := fun _ => none

/-- A payment state with one pending order and no payments. -/
def exPayFresh : PayState :=
  { pays := [], orders := [⟨1, "pendiente", 100, "d"⟩] }

/-- A payment state with one pending order and one open (pending) payment. -/
def exPayOpen : PayState :=
  { pays := [⟨1, 1, "transferencia", "pendiente", 100, none, ""⟩],
    orders := [⟨1, "pendiente", 100, "d"⟩] }

/-- A payment state whose order is `pagado`. -/
def exPayPagado : PayState :=
  { pays := [], orders := [⟨1, "pagado", 100, "d"⟩] }

/-- A payment state with one `en_revision` payment on an `en_revision`
order. -/
def exPayRevision : PayState :=
  { pays := [⟨1, 1, "transferencia", "en_revision", 100, none, "u"⟩],
    orders := [⟨1, "en_revision", 100, "d"⟩] }

/-- A create request with a plain (non-card) method and no metadata. -/
def exAttrsPlain : PayAttrs :=
  { pedidoId := 1, metodo := "transferencia", metadata := .dict [],
    estado := none, comprobanteArchivo := none, comprobanteUrl := "" }

/-- A create request carrying a proof url. -/
def exAttrsProof : PayAttrs :=
  { pedidoId := 1, metodo := "transferencia", metadata := .dict [],
    estado := none, comprobanteArchivo := none, comprobanteUrl := "u" }

/-- A card-method create request whose metadata is the raw empty string. -/
def exAttrsRawEmpty : PayAttrs :=
  { pedidoId := 1, metodo := "tarjeta", metadata := .raw "",
    estado := none, comprobanteArchivo := none, comprobanteUrl := "" }

/-- A card-method create request with a raw non-JSON metadata string. -/
def exAttrsRawX : PayAttrs :=
  { pedidoId := 1, metodo := "tarjeta", metadata := .raw "x",
    estado := none, comprobanteArchivo := none, comprobanteUrl := "" }

/-- A card-method create request whose metadata carries a CVV key. -/
def exAttrsCard : PayAttrs :=
  { pedidoId := 1, metodo := "tarjeta", metadata := .dict ["cvv"],
    estado := none, comprobanteArchivo := none, comprobanteUrl := "" }

/-- The state after creating the proof-carrying payment on `exPayFresh`. -/
def exPayProofResult : PayState :=
  { pays := [⟨5, 1, "transferencia", "en_revision", 100, none, "u"⟩],
    orders := [⟨1, "pendiente", 100, "d"⟩] }

/-- The state after creating the proof-less payment on `exPayFresh`. -/
def exPayPlainResult : PayState :=
  { pays := [⟨6, 1, "transferencia", "pendiente", 100, none, ""⟩],
    orders := [⟨1, "pendiente", 100, "d"⟩] }

/-! ## Shipment tracker -/

/-- The `estados_validos` list of `ShipmentViewSet.update_status`; the same
literal list is used by `ShipmentSerializer.validate` against the *order*
state. -/
def estadosEnvio : List String := ["pendiente", "preparando", "en camino", "entregado"]

/-- `ShipmentSerializer.validate` + `ShipmentSerializer.create`: creating a
shipment requires the parent order's state to be in `estadosEnvio`; when the
order is `pendiente` it is promoted to `procesando`.  The shipment row is
created with the requested state (the model default is `pendiente`; the
field is writable). -/
def shipmentCreate (orders : List Order) (pedidoId : Nat) (newId : Nat)
    (estadoIn : String) : Except ApiError (List Order × Shipment) :=
  match findOrder orders pedidoId with
  | none => .error .pedidoNotFound
  | some pedido =>
    if !(estadosEnvio.contains pedido.estado) then
      .error (.envioNoCreable pedido.estado)
    else
      let orders1 :=
        if pedido.estado == "pendiente" then
          updateOrder orders pedidoId (fun o => { o with estado := "procesando" })
        else orders
      .ok (orders1, ⟨newId, pedidoId, estadoIn⟩)

/-- `ShipmentViewSet.update_status`: any target state in `estadosEnvio` is
accepted — there is no check against the shipment's current state.  Setting
`en camino` promotes the parent order to `enviado` (when it is not already),
then setting `entregado` promotes it to `entregado`; the two conditionals
run in sequence as in the source. -/
def updateStatus (sh : Shipment) (orders : List Order) (nuevo : String) :
    Option ApiError × Shipment × List Order :=
  if !(estadosEnvio.contains nuevo) then
    (some .estadoEnvioInvalido, sh, orders)
  else
    let sh1 : Shipment := { sh with estado := nuevo }
    let orders1 :=
      match findOrder orders sh.pedidoId with
      | some pedido =>
        if nuevo == "en camino" && !(pedido.estado == "enviado") then
          updateOrder orders sh.pedidoId (fun o => { o with estado := "enviado" })
        else orders
      | none => orders
    let orders2 :=
      match findOrder orders1 sh.pedidoId with
      | some pedido =>
        if nuevo == "entregado" && !(pedido.estado == "entregado") then
          updateOrder orders1 sh.pedidoId (fun o => { o with estado := "entregado" })
        else orders1
      | none => orders1
    (none, sh1, orders2)

/-- An order table with a single pending order, for shipment scenarios. -/
def exOrdersPend : List Order := [⟨1, "pendiente", 100, "d"⟩]

/-- A delivered shipment. -/
def exShipEntregado : Shipment := ⟨1, 1, "entregado"⟩

/-- An order table with a single delivered order. -/
def exOrdersEntregado : List Order := [⟨1, "entregado", 100, "d"⟩]

/-- A concrete pending order state used to witness the cancel claim. -/
def exOrderPendiente : OrderState :=
  { pedido := { id := 1, estado := "pendiente", total := 100, direccion := "d" },
    detalles := [{ id := 10, pedidoId := 1, productoId := 1, cantidad := 2, subtotal := 20 }],
    products := [{ id := 1, nombre := "A", precio := 10, precioFinal := 10,
                   stock := 5, stockVendido := 0, stockIlimitado := false }] }

/-- A concrete delivered (terminal) order state used to witness the lock claim. -/
def exOrderEntregado : OrderState :=
  { pedido := { id := 1, estado := "entregado", total := 100, direccion := "d" },
    detalles := [{ id := 10, pedidoId := 1, productoId := 1, cantidad := 2, subtotal := 20 }],
    products := [{ id := 1, nombre := "A", precio := 10, precioFinal := 10,
                   stock := 5, stockVendido := 0, stockIlimitado := false }] }

end Relojes

namespace Relojes

/-- C5: `cancel` fails on an already cancelled order and on any state outside
`{pendiente, procesando}`, each time leaving the state untouched; a
successful cancel sets the status to `cancelado` while leaving the details
and the product stock untouched, and a second cancel of the same order then
fails with the status still `cancelado`. -/
theorem cancel_spec (s : OrderState) :
    (s.pedido.estado = "cancelado" → cancel s = (.yaCancelada, s))
    ∧ (s.pedido.estado ≠ "cancelado" →
        s.pedido.estado ∉ (["pendiente", "procesando"] : List String) →
        cancel s = (.noCancelable s.pedido.estado, s))
    ∧ ((cancel s).1 = .ok →
        (cancel s).2.pedido.estado = "cancelado"
        ∧ (cancel s).2.detalles = s.detalles
        ∧ (cancel s).2.products = s.products
        ∧ cancel (cancel s).2 = (.yaCancelada, (cancel s).2)) := by
  refine ⟨?_, ?_, ?_⟩
  · intro h
    simp [cancel, h]
  · intro h₁ h₂
    have h₂' : s.pedido.estado ≠ "pendiente" ∧ s.pedido.estado ≠ "procesando" := by
      simpa using h₂
    simp [cancel, h₁, h₂'.1, h₂'.2]
  · intro h
    by_cases h₁ : s.pedido.estado = "cancelado"
    · simp [cancel, h₁] at h
    · by_cases h₂ : (["pendiente", "procesando"].contains s.pedido.estado) = true
      · have h₂' : s.pedido.estado = "pendiente" ∨ s.pedido.estado = "procesando" := by
          simpa using h₂
        rcases h₂' with h₂' | h₂' <;> simp [cancel, h₁, h₂']
      · have h₂' : s.pedido.estado ≠ "pendiente" ∧ s.pedido.estado ≠ "procesando" := by
          simpa using h₂
        simp [cancel, h₁, h₂'.1, h₂'.2] at h

/-- Witness for `cancel_spec` at a concrete pending order. -/
theorem cancel_spec_witness :
    ((cancel exOrderPendiente).1 = .ok
      ∧ (cancel exOrderPendiente).2.pedido.estado = "cancelado"
      ∧ cancel (cancel exOrderPendiente).2 = (.yaCancelada, (cancel exOrderPendiente).2))
    ∧ cancel (cancel exOrderPendiente).2
        = (.yaCancelada, (cancel exOrderPendiente).2) := by
  have h := (cancel_spec exOrderPendiente).2.2 (by decide)
  exact ⟨⟨by decide, h.1, h.2.2.2⟩, h.2.2.2⟩

/-- C6: for an order in a terminal state (`entregado` or `cancelado`), both
the order update and the remove-detail action fail with the lock error and
leave the order, its details and the product stock unchanged. -/
theorem terminal_order_locked (s : OrderState) (c : OrderChanges)
    (dd : List DetalleData) (detailId : Nat)
    (h : s.pedido.estado = "entregado" ∨ s.pedido.estado = "cancelado") :
    performUpdate s c dd = (some (.orderLocked s.pedido.estado), s)
    ∧ removeDetail s detailId = (some (.orderLocked s.pedido.estado), s) := by
  rcases h with h | h <;> constructor <;> simp [performUpdate, removeDetail, h]

/-- Filtering after an element-wise rewrite that never turns a non-matching
element into a matching one cannot increase the number of matches. -/
theorem filter_length_map_le {α : Type} (l : List α) (f : α → α) (p : α → Bool)
    (h : ∀ a, p (f a) = true → p a = true) :
    ((l.map f).filter p).length ≤ (l.filter p).length := by
  induction l with
  | nil => simp
  | cons a t ih =>
    simp only [List.map_cons, List.filter_cons]
    cases hfa : p (f a) with
    | true =>
      rw [h a hfa]
      simpa using Nat.succ_le_succ ih
    | false =>
      cases hpa : p a with
      | true => simpa using Nat.le_succ_of_le ih
      | false => simpa using ih

/-- Looking up the row with key satisfying `q` after a keyed in-place update
returns the updated row (`f` must preserve the key predicate). -/
theorem find?_map_update {α : Type} (l : List α) (q : α → Bool) (f : α → α)
    (hf : ∀ a, q (f a) = q a) :
    (l.map (fun a => if q a then f a else a)).find? q = (l.find? q).map f := by
  induction l with
  | nil => rfl
  | cons a t ih =>
    by_cases h : q a = true
    · simp [List.find?_cons, h, hf]
    · have h' : q a = false := by simpa using h
      simp [List.find?_cons, h', ih]

/-- `hasOpenPay` as an `any` of `isOpenFor`. -/
theorem hasOpenPay_eq (pays : List Pay) (pid : Nat) :
    hasOpenPay pays pid = pays.any (isOpenFor pid) := rfl

/-- No open payment for an order means its open-payment count is zero. -/
theorem openFilter_nil_of_not_open (pays : List Pay) (pid : Nat)
    (h : hasOpenPay pays pid = false) :
    (pays.filter (isOpenFor pid)).length = 0 := by
  rw [hasOpenPay_eq] at h
  have hnil : pays.filter (isOpenFor pid) = [] := by
    rw [List.filter_eq_nil_iff]
    intro a ha
    have := List.any_eq_false.mp h a ha
    simpa using this
  simp [hnil]

/-- A successful `payValidate` implies the order had no open payment. -/
theorem payValidate_ok_no_open (decode : String → Option (List String))
    (s : PayState) (attrs : PayAttrs) (ks : List String)
    (hv : payValidate decode s attrs = .ok ks) :
    hasOpenPay s.pays attrs.pedidoId = false := by
  unfold payValidate at hv
  split at hv
  · cases hv
  · split at hv
    · cases hv
    · split at hv
      · cases hv
      · split at hv
        · cases hv
        · split at hv
          · cases hv
          · rename_i hopen
            simpa using hopen

/-- A successful `createPay` appends exactly one payment, attached to the
requested order, to a table that had no open payment for that order. -/
theorem createPay_ok_shape (decode : String → Option (List String))
    (s : PayState) (attrs : PayAttrs) (newId : Nat) (s1 : PayState)
    (hc : createPay decode s attrs newId = .ok s1) :
    hasOpenPay s.pays attrs.pedidoId = false
    ∧ ∃ nuevo : Pay, s1.pays = s.pays ++ [nuevo]
        ∧ nuevo.pedidoId = attrs.pedidoId ∧ s1.orders = s.orders := by
  unfold createPay at hc
  split at hc
  · cases hc
  · rename_i ks hv
    refine ⟨payValidate_ok_no_open decode s attrs ks hv, ?_⟩
    split at hc
    · cases hc
    · split at hc
      · cases hc
      · have hs := Except.ok.inj hc
        subst hs
        exact ⟨_, rfl, rfl, rfl⟩

/-- Every single payment operation preserves "at most one open payment per
order". -/
theorem applyPayOp_open_le (decode : String → Option (List String))
    (s : PayState) (op : PayOp) (pid : Nat)
    (h : openCount s pid ≤ 1) : openCount (applyPayOp decode s op) pid ≤ 1 := by
  cases op with
  | create attrs newId =>
    dsimp only [applyPayOp]
    cases hc : createPay decode s attrs newId with
    | error e => exact h
    | ok s1 =>
      obtain ⟨hno, nuevo, hpays, hnid, -⟩ :=
        createPay_ok_shape decode s attrs newId s1 hc
      unfold openCount
      rw [hpays]
      simp only [List.filter_append, List.length_append]
      by_cases hpid : pid = attrs.pedidoId
      · rw [hpid] at *
        rw [openFilter_nil_of_not_open s.pays attrs.pedidoId hno]
        have hle : ([nuevo].filter (isOpenFor attrs.pedidoId)).length ≤ 1 := by
          simpa using List.length_filter_le (isOpenFor attrs.pedidoId) [nuevo]
        omega
      · have hfalse : isOpenFor pid nuevo = false := by
          simp [isOpenFor, hnid, Ne.symm hpid]
        have hzero : ([nuevo].filter (isOpenFor pid)).length = 0 := by
          simp [List.filter_cons, hfalse]
        rw [hzero]
        simpa using h
  | complete payId =>
    dsimp only [applyPayOp]
    unfold completeAction
    cases hf : findPay s.pays payId with
    | none => simpa using h
    | some pago =>
      by_cases hg : (openStates.contains pago.estado) = true
      · simp only [hg, Bool.not_true, Bool.false_eq_true, if_false]
        refine le_trans ?_ h
        unfold openCount updatePay
        apply filter_length_map_le
        intro a ha
        by_cases hi : (a.id == payId) = true
        · rw [if_pos hi] at ha
          simp [isOpenFor, payComplete] at ha
          exact absurd ha.2 (by decide)
        · rw [if_neg hi] at ha
          exact ha
      · have hg' : (openStates.contains pago.estado) = false := by simpa using hg
        simp only [hg', Bool.not_false, if_true]
        exact h
  | fail payId =>
    dsimp only [applyPayOp]
    unfold failAction
    cases hf : findPay s.pays payId with
    | none => simpa using h
    | some pago =>
      by_cases hg : (openStates.contains pago.estado) = true
      · simp only [hg, Bool.not_true, Bool.false_eq_true, if_false]
        refine le_trans ?_ h
        unfold openCount updatePay
        apply filter_length_map_le
        intro a ha
        by_cases hi : (a.id == payId) = true
        · rw [if_pos hi] at ha
          simp [isOpenFor, payFail] at ha
          exact absurd ha.2 (by decide)
        · rw [if_neg hi] at ha
          exact ha
      · have hg' : (openStates.contains pago.estado) = false := by simpa using hg
        simp only [hg', Bool.not_false, if_true]
        exact h

/-- Sequences of payment operations preserve the open-payment bound. -/
theorem runPayOps_open_le (decode : String → Option (List String))
    (ops : List PayOp) : ∀ (s : PayState) (pid : Nat),
    openCount s pid ≤ 1 → openCount (runPayOps decode s ops) pid ≤ 1 := by
  induction ops with
  | nil => intro s pid h; exact h
  | cons op rest ih =>
    intro s pid h
    exact ih _ _ (applyPayOp_open_le decode s op pid h)

/-- C2: checkout fails with the empty-cart error when the cart has no items
and with the insufficient-stock error naming the first offending product
when the first pass finds one, both without touching any state; and whenever
checkout reports a created order, that order is in `pendiente` with total
equal to the cart total and the cart has been cleared. -/
theorem checkout_validation_spec (s : StoreState) (newId : Nat) (direccion : String)
    (interf : Nat → List Product → List Product) :
    (s.items = [] → checkout s newId direccion interf = (.failure .emptyCart, s))
    ∧ (∀ nombre, firstViolation s.products s.items = some nombre →
        checkout s newId direccion interf = (.failure (.insufficientStock nombre), s))
    ∧ (∀ pid s', checkout s newId direccion interf = (.created pid, s') →
        pid = newId ∧ s'.items = []
        ∧ s'.orders = s.orders
            ++ [⟨newId, "pendiente", cartTotal s.products s.items, direccion⟩]) := by
  refine ⟨?_, ?_, ?_⟩
  · intro h
    simp [checkout, h]
  · intro nombre h
    have hne : s.items ≠ [] := by
      intro he
      rw [he] at h
      simp [firstViolation] at h
    have hlen : ¬(s.items.length = 0) := by
      simpa [List.length_eq_zero] using hne
    simp [checkout, hlen, h]
  · intro pid s' hck
    by_cases hlen : s.items.length = 0
    · simp [checkout, hlen] at hck
    · simp only [checkout, beq_iff_eq, hlen, if_false, if_neg hlen] at hck
      cases hfv : firstViolation s.products s.items with
      | some nombre => simp [hfv] at hck
      | none =>
        rw [hfv] at hck
        rcases hsp : secondPass newId interf s.items 0 s.products [] with ⟨err, ps, ds⟩
        rw [hsp] at hck
        cases err with
        | some nombre => simp at hck
        | none =>
          simp only [Prod.mk.injEq, CheckoutResult.created.injEq] at hck
          obtain ⟨hpid, hs'⟩ := hck
          subst hpid
          rw [← hs']
          exact ⟨rfl, rfl, rfl⟩

/-- Witness for `checkout_validation_spec`: the spec's three scenarios — an
empty cart, a cart asking 6 of a product with 5 available, and a cart asking
3 of a product with 5 available. -/
theorem checkout_validation_spec_witness :
    checkout exCartEmpty 5 "d" interfNone = (.failure .emptyCart, exCartEmpty)
    ∧ checkout exCartOver 6 "d" interfNone = (.failure (.insufficientStock "A"), exCartOver)
    ∧ ((checkout exCartOk 9 "d" interfNone).2.items = []
       ∧ (checkout exCartOk 9 "d" interfNone).2.orders =
           exCartOk.orders
             ++ [⟨9, "pendiente", cartTotal exCartOk.products exCartOk.items, "d"⟩]) := by
  refine ⟨(checkout_validation_spec exCartEmpty 5 "d" interfNone).1 rfl,
          (checkout_validation_spec exCartOver 6 "d" interfNone).2.1 "A" (by decide), ?_⟩
  have h := (checkout_validation_spec exCartOk 9 "d" interfNone).2.2 9
    (checkout exCartOk 9 "d" interfNone).2 (by decide)
  exact ⟨h.2.1, h.2.2⟩

/-- C1 (amended): when the first pass is clean and checkout nevertheless
fails with the insufficient-stock error — i.e. the failure arose in the
second-pass re-validation — no Order and no OrderDetail persist from the
attempt and the cart is unchanged.  (The product table is NOT restored: see
`checkout_sold_counter_persists_cex`.) -/
theorem checkout_second_pass_rollback (s : StoreState) (newId : Nat) (direccion : String)
    (interf : Nat → List Product → List Product) (nombre : String) (s' : StoreState)
    (hfv : firstViolation s.products s.items = none)
    (hck : checkout s newId direccion interf = (.failure (.insufficientStock nombre), s')) :
    s'.orders = s.orders ∧ s'.details = s.details ∧ s'.items = s.items := by
  by_cases hlen : s.items.length = 0
  · simp [checkout, hlen] at hck
  · simp only [checkout, beq_iff_eq, hlen, if_false, if_neg hlen] at hck
    rw [hfv] at hck
    rcases hsp : secondPass newId interf s.items 0 s.products [] with ⟨err, ps, ds⟩
    rw [hsp] at hck
    cases err with
    | some n =>
      simp only [Prod.mk.injEq] at hck
      rw [← hck.2]
      exact ⟨rfl, rfl, rfl⟩
    | none => simp at hck

/-- Witness for `checkout_second_pass_rollback` at the two-item racing
scenario. -/
theorem checkout_second_pass_rollback_witness :
    (checkout exCartTwo 7 "d" interfRace).2.orders = exCartTwo.orders
    ∧ (checkout exCartTwo 7 "d" interfRace).2.details = exCartTwo.details
    ∧ (checkout exCartTwo 7 "d" interfRace).2.items = exCartTwo.items :=
  checkout_second_pass_rollback exCartTwo 7 "d" interfRace "B"
    (checkout exCartTwo 7 "d" interfRace).2 (by decide) (by decide)

/-- C1 counterexample: a two-item cart passes the first pass; a concurrent
purchase makes the second-pass re-check of item 1 (product B) fail.  The
order and details are rolled back, but product A's sold counter — saved
while processing item 0 of the same pass — persists at 2 (it was 0), even
though the interference never touched product A.  So a stock mutation from
the failed attempt does persist, refuting the claim as stated. -/
theorem checkout_sold_counter_persists_cex :
    firstViolation exCartTwo.products exCartTwo.items = none
    ∧ (checkout exCartTwo 7 "d" interfRace).1 = .failure (.insufficientStock "B")
    ∧ (checkout exCartTwo 7 "d" interfRace).2.orders = []
    ∧ (findProduct exCartTwo.products 1).map Product.stockVendido = some 0
    ∧ interfRace 1 [prodA] = [prodA]
    ∧ (findProduct (checkout exCartTwo 7 "d" interfRace).2.products 1).map
        Product.stockVendido = some 2 := by
  exact ⟨by decide, by decide, by decide, by decide, by decide, by decide⟩

/-- Witness for `terminal_order_locked` at a concrete delivered order. -/
theorem terminal_order_locked_witness :
    performUpdate exOrderEntregado { estado := some "pendiente", direccion := none }
        [{ producto := some 1, cantidad := 3, detalleId := some 10 }]
      = (some (.orderLocked "entregado"), exOrderEntregado)
    ∧ removeDetail exOrderEntregado 10
      = (some (.orderLocked "entregado"), exOrderEntregado) := by
  have h := terminal_order_locked exOrderEntregado
    { estado := some "pendiente", direccion := none }
    [{ producto := some 1, cantidad := 3, detalleId := some 10 }] 10 (Or.inl rfl)
  exact h

/-- Looking up a payment after a keyed update of that payment returns the
updated row. -/
theorem findPay_updatePay (pays : List Pay) (payId : Nat) (f : Pay → Pay)
    (hf : ∀ p, (f p).id = p.id) :
    findPay (updatePay pays payId f) payId = (findPay pays payId).map f := by
  unfold findPay updatePay
  apply find?_map_update
  intro a
  simp [hf a]

/-- Looking up an order after a keyed update of that order returns the
updated row. -/
theorem findOrder_updateOrder (orders : List Order) (oid : Nat) (f : Order → Order)
    (hf : ∀ o, (f o).id = o.id) :
    findOrder (updateOrder orders oid f) oid = (findOrder orders oid).map f := by
  unfold findOrder updateOrder
  apply find?_map_update
  intro a
  simp [hf a]

/-- Attaching a proof does not change the payment's key. -/
theorem submitProofUpdate_id (file : Option String) (url : String) (p : Pay) :
    (submitProofUpdate file url p).id = p.id := by
  unfold submitProofUpdate
  cases file <;> by_cases h : (url != "") = true <;> simp [h]

/-- C3: creating a payment is rejected with the duplicate-open-payment error
while the order already has an open (`pendiente`/`en_revision`) payment, and
with the already-paid error when the order is `pagado`; and over any
sequence of create/complete/fail operations starting from an empty payment
table, every order has at most one open payment at every point. -/
theorem payment_open_uniqueness :
    (∀ (decode : String → Option (List String)) (s : PayState) (attrs : PayAttrs)
        (newId : Nat) (ks : List String) (pedido : Order),
        decodeMeta decode attrs.metadata = some ks →
        (attrs.metodo == "tarjeta" && hasForbidden ks) = false →
        findOrder s.orders attrs.pedidoId = some pedido →
        pedido.estado ≠ "pagado" →
        hasOpenPay s.pays attrs.pedidoId = true →
        createPay decode s attrs newId = Except.error .duplicateOpenPayment)
    ∧ (∀ (decode : String → Option (List String)) (s : PayState) (attrs : PayAttrs)
        (newId : Nat) (ks : List String) (pedido : Order),
        decodeMeta decode attrs.metadata = some ks →
        (attrs.metodo == "tarjeta" && hasForbidden ks) = false →
        findOrder s.orders attrs.pedidoId = some pedido →
        pedido.estado = "pagado" →
        createPay decode s attrs newId = Except.error .pedidoYaPagado)
    ∧ (∀ (decode : String → Option (List String)) (orders : List Order)
        (ops : List PayOp) (pid : Nat),
        openCount (runPayOps decode ⟨[], orders⟩ ops) pid ≤ 1) := by
  refine ⟨?_, ?_, ?_⟩
  · intro decode s attrs newId ks pedido hm hforb ho hp hopen
    have hp' : (pedido.estado == "pagado") = false := by simpa using hp
    simp [createPay, payValidate, hm, hforb, ho, hp', hopen]
  · intro decode s attrs newId ks pedido hm hforb ho hp
    simp [createPay, payValidate, hm, hforb, ho, hp]
  · intro decode orders ops pid
    apply runPayOps_open_le
    simp [openCount]

/-- Witness for `payment_open_uniqueness`: a second payment on an order
with an open one, and a payment on a `pagado` order, are both rejected. -/
theorem payment_open_uniqueness_witness :
    createPay decodeFailing exPayOpen exAttrsPlain 2 = Except.error .duplicateOpenPayment
    ∧ createPay decodeFailing exPayPagado exAttrsPlain 2 = Except.error .pedidoYaPagado := by
  refine ⟨payment_open_uniqueness.1 decodeFailing exPayOpen exAttrsPlain 2 []
            ⟨1, "pendiente", 100, "d"⟩ (by decide) (by decide) (by decide)
            (by decide) (by decide),
          payment_open_uniqueness.2.1 decodeFailing exPayPagado exAttrsPlain 2 []
            ⟨1, "pagado", 100, "d"⟩ (by decide) (by decide) (by decide) (by decide)⟩

/-- C7 (amended): a raw **non-empty** metadata string that fails JSON
decoding rejects the payment with the invalid-metadata error, and a
card-method payment whose (decoded) metadata contains a sensitive key is
rejected.  (A raw *empty* string is coerced to the empty dict by
`attrs.get('metadata') or \x7b\x7d` and never decoded: see
`empty_metadata_string_cex`.) -/
theorem card_metadata_validation :
    (∀ (decode : String → Option (List String)) (s : PayState) (attrs : PayAttrs)
        (str : String),
        attrs.metadata = .raw str → str ≠ "" → decode str = none →
        payValidate decode s attrs = .error .invalidMetadata)
    ∧ (∀ (decode : String → Option (List String)) (s : PayState) (attrs : PayAttrs)
        (ks : List String),
        decodeMeta decode attrs.metadata = some ks →
        attrs.metodo = "tarjeta" → hasForbidden ks = true →
        payValidate decode s attrs = .error .forbiddenSensitiveData) := by
  refine ⟨?_, ?_⟩
  · intro decode s attrs str hm hne hdec
    have hns : (str == "") = false := by simpa using hne
    have hnone : decodeMeta decode attrs.metadata = none := by
      simp [decodeMeta, normalizeMeta, hm, metaFalsy, hns, hdec]
    simp [payValidate, hnone]
  · intro decode s attrs ks hm hmet hforb
    simp [payValidate, hm, hmet, hforb]

/-- Witness for `card_metadata_validation`: undecodable raw metadata "x" is
rejected as invalid, and card metadata containing `cvv` is rejected as
sensitive. -/
theorem card_metadata_validation_witness :
    payValidate decodeFailing exPayFresh exAttrsRawX = .error .invalidMetadata
    ∧ payValidate decodeFailing exPayFresh exAttrsCard = .error .forbiddenSensitiveData := by
  exact ⟨card_metadata_validation.1 decodeFailing exPayFresh exAttrsRawX "x"
           rfl (by decide) rfl,
         card_metadata_validation.2 decodeFailing exPayFresh exAttrsCard ["cvv"]
           (by decide) rfl (by decide)⟩

/-- C7 counterexample: metadata arriving as the raw **empty** string is a
decode failure for `json.loads` (the decoder returns `none` on it), yet the
card-method payment passes validation: `metadata or \x7b\x7d` replaces the
falsy empty string with an empty dict before the decode step, so no
invalid-metadata error is raised, refuting the claim as stated. -/
theorem empty_metadata_string_cex :
    exAttrsRawEmpty.metadata = .raw ""
    ∧ exAttrsRawEmpty.metodo = "tarjeta"
    ∧ decodeFailing "" = none
    ∧ payValidate decodeFailing exPayFresh exAttrsRawEmpty = .ok [] := by
  exact ⟨rfl, rfl, rfl, rfl⟩

/-- C10: a successful payment creation with no explicit `estado` appends
exactly one payment whose status is `en_revision` when a proof (file or
non-empty url) was supplied and `pendiente` otherwise, and whose paid amount
is the order's total (the amount field is read-only, hence never supplied). -/
theorem pay_create_proof_in_review (decode : String → Option (List String))
    (s : PayState) (attrs : PayAttrs) (newId : Nat) (s1 : PayState) (pedido : Order)
    (hEst : attrs.estado = none)
    (hOrd : findOrder s.orders attrs.pedidoId = some pedido)
    (hOk : createPay decode s attrs newId = .ok s1) :
    s1.pays = s.pays ++
      [⟨newId, attrs.pedidoId, attrs.metodo,
        (if attrs.comprobanteArchivo.isSome || attrs.comprobanteUrl != "" then
          "en_revision" else "pendiente"),
        pedido.total, attrs.comprobanteArchivo, attrs.comprobanteUrl⟩] := by
  unfold createPay at hOk
  split at hOk
  · cases hOk
  · split at hOk
    · cases hOk
    · rename_i pedido' heq
      rw [hOrd] at heq
      obtain rfl := Option.some.inj heq
      split at hOk
      · cases hOk
      · have hs := Except.ok.inj hOk
        subst hs
        simp [hEst]

/-- Witness for `pay_create_proof_in_review`: on a fresh pending order, a
creation carrying a proof url lands in `en_revision` and a proof-less one in
`pendiente`, both with `monto_pagado` = the order total of 100. -/
theorem pay_create_proof_in_review_witness :
    (createPay decodeFailing exPayFresh exAttrsProof 5 = .ok exPayProofResult
      ∧ exPayProofResult.pays =
          [⟨5, 1, "transferencia", "en_revision", 100, none, "u"⟩])
    ∧ (createPay decodeFailing exPayFresh exAttrsPlain 6 = .ok exPayPlainResult
      ∧ exPayPlainResult.pays =
          [⟨6, 1, "transferencia", "pendiente", 100, none, ""⟩]) := by
  refine ⟨⟨by rfl, ?_⟩, ⟨by rfl, ?_⟩⟩
  · have h := pay_create_proof_in_review decodeFailing exPayFresh exAttrsProof 5
      exPayProofResult ⟨1, "pendiente", 100, "d"⟩ rfl (by decide) (by rfl)
    simpa using h
  · have h := pay_create_proof_in_review decodeFailing exPayFresh exAttrsPlain 6
      exPayPlainResult ⟨1, "pendiente", 100, "d"⟩ rfl (by decide) (by rfl)
    simpa using h

/-- C4 (amended): `proof` succeeds only from `pendiente`, attaches the proof
and moves the payment to `en_revision`, promoting a `pendiente` parent order
to `en_revision`; `fail` succeeds from `pendiente` or `en_revision`, moving
the payment to `fallido` without touching the order; `reject` succeeds
**only from `en_revision`** (not from `pendiente`), moving the payment to
`fallido` and demoting an `en_revision` parent order back to `pendiente`;
every other source state is rejected with the state unchanged. -/
theorem payment_transitions_spec (s : PayState) (payId : Nat) (pago : Pay)
    (hfind : findPay s.pays payId = some pago) :
    (pago.estado = "pendiente" → ∀ (file : Option String) (url : String),
        (file.isNone && (url == "")) = false →
        (proofAction s payId file url).1 = none
        ∧ findPay (proofAction s payId file url).2.pays payId
            = some (submitProofUpdate file url pago)
        ∧ (submitProofUpdate file url pago).estado = "en_revision"
        ∧ (∀ pedido, findOrder s.orders pago.pedidoId = some pedido →
            findOrder (proofAction s payId file url).2.orders pago.pedidoId
              = some (if pedido.estado == "pendiente" then
                  { pedido with estado := "en_revision" } else pedido)))
    ∧ (pago.estado ≠ "pendiente" → ∀ (file : Option String) (url : String),
        proofAction s payId file url = (some .soloPendiente, s))
    ∧ ((pago.estado = "pendiente" ∨ pago.estado = "en_revision") →
        (failAction s payId).1 = none
        ∧ findPay (failAction s payId).2.pays payId = some (payFail pago)
        ∧ (payFail pago).estado = "fallido"
        ∧ (failAction s payId).2.orders = s.orders)
    ∧ (¬(pago.estado = "pendiente" ∨ pago.estado = "en_revision") →
        failAction s payId = (some .soloPendienteORevision, s))
    ∧ (pago.estado = "en_revision" →
        (rejectAction s payId).1 = none
        ∧ findPay (rejectAction s payId).2.pays payId = some (payFail pago)
        ∧ (∀ pedido, findOrder s.orders pago.pedidoId = some pedido →
            findOrder (rejectAction s payId).2.orders pago.pedidoId
              = some (if pedido.estado == "en_revision" then
                  { pedido with estado := "pendiente" } else pedido)))
    ∧ (pago.estado ≠ "en_revision" →
        rejectAction s payId = (some .soloEnRevision, s)) := by
  refine ⟨?_, ?_, ?_, ?_, ?_, ?_⟩
  · intro hp file url hfu
    have hbeq : (pago.estado == "pendiente") = true := by simp [hp]
    refine ⟨?_, ?_, rfl, ?_⟩
    · unfold proofAction
      rw [hfind]
      simp only [hbeq, Bool.not_true, Bool.false_eq_true, if_false, hfu]
      cases ho : findOrder s.orders pago.pedidoId with
      | none => rfl
      | some pedido =>
        by_cases hpe : (pedido.estado == "pendiente") = true <;> simp [hpe]
    · unfold proofAction
      rw [hfind]
      simp only [hbeq, Bool.not_true, Bool.false_eq_true, if_false, hfu]
      have hupd := findPay_updatePay s.pays payId (submitProofUpdate file url)
        (submitProofUpdate_id file url)
      cases ho : findOrder s.orders pago.pedidoId with
      | none =>
        simp [hupd, hfind]
      | some pedido =>
        by_cases hpe : (pedido.estado == "pendiente") = true <;>
          simp [hpe, hupd, hfind]
    · intro pedido ho
      unfold proofAction
      rw [hfind]
      simp only [hbeq, Bool.not_true, Bool.false_eq_true, if_false, hfu]
      rw [ho]
      by_cases hpe : (pedido.estado == "pendiente") = true
      · have hord := findOrder_updateOrder s.orders pago.pedidoId
          (fun o => { o with estado := "en_revision" }) (fun o => rfl)
        simp [hpe, hord, ho]
      · have hpe' : (pedido.estado == "pendiente") = false := by simpa using hpe
        simp [hpe', ho]
  · intro hp file url
    have hbeq : (pago.estado == "pendiente") = false := by simpa using hp
    unfold proofAction
    rw [hfind]
    simp [hbeq]
  · intro hp
    have hcont : openStates.contains pago.estado = true := by
      rcases hp with h | h <;> simp [openStates, h]
    have hupd := findPay_updatePay s.pays payId payFail (fun p => rfl)
    have hred : failAction s payId
        = (none, { s with pays := updatePay s.pays payId payFail }) := by
      unfold failAction
      rw [hfind]
      simp only [hcont, Bool.not_true, Bool.false_eq_true, if_false]
    rw [hred]
    exact ⟨rfl, by simp [hupd, hfind], rfl, rfl⟩
  · intro hp
    have h1 : pago.estado ≠ "pendiente" := fun h => hp (Or.inl h)
    have h2 : pago.estado ≠ "en_revision" := fun h => hp (Or.inr h)
    unfold failAction
    rw [hfind]
    simp [openStates, h1, h2]
  · intro hp
    have hbeq : (pago.estado == "en_revision") = true := by simp [hp]
    refine ⟨?_, ?_, ?_⟩
    · unfold rejectAction
      rw [hfind]
      simp only [hbeq, Bool.not_true, Bool.false_eq_true, if_false]
      cases ho : findOrder s.orders pago.pedidoId with
      | none => rfl
      | some pedido =>
        by_cases hpe : (pedido.estado == "en_revision") = true <;> simp [hpe]
    · unfold rejectAction
      rw [hfind]
      simp only [hbeq, Bool.not_true, Bool.false_eq_true, if_false]
      have hupd := findPay_updatePay s.pays payId payFail (fun p => rfl)
      cases ho : findOrder s.orders pago.pedidoId with
      | none => simp [hupd, hfind]
      | some pedido =>
        by_cases hpe : (pedido.estado == "en_revision") = true <;>
          simp [hpe, hupd, hfind]
    · intro pedido ho
      unfold rejectAction
      rw [hfind]
      simp only [hbeq, Bool.not_true, Bool.false_eq_true, if_false]
      rw [ho]
      by_cases hpe : (pedido.estado == "en_revision") = true
      · have hord := findOrder_updateOrder s.orders pago.pedidoId
          (fun o => { o with estado := "pendiente" }) (fun o => rfl)
        simp [hpe, hord, ho]
      · have hpe' : (pedido.estado == "en_revision") = false := by simpa using hpe
        simp [hpe', ho]
  · intro hp
    have hbeq : (pago.estado == "en_revision") = false := by simpa using hp
    unfold rejectAction
    rw [hfind]
    simp [hbeq]

/-- Witness for `payment_transitions_spec`: the spec's scenario — a pending
payment receives a proof url and moves to `en_revision`; `fail` succeeds on
a pending payment without touching the order; `reject` succeeds on an
`en_revision` payment and fails on a pending one. -/
theorem payment_transitions_spec_witness :
    ((proofAction exPayOpen 1 none "u").1 = none
      ∧ findPay (proofAction exPayOpen 1 none "u").2.pays 1
          = some (submitProofUpdate none "u"
              ⟨1, 1, "transferencia", "pendiente", 100, none, ""⟩))
    ∧ ((failAction exPayOpen 1).1 = none
      ∧ (failAction exPayOpen 1).2.orders = exPayOpen.orders)
    ∧ ((rejectAction exPayRevision 1).1 = none
      ∧ findPay (rejectAction exPayRevision 1).2.pays 1
          = some (payFail ⟨1, 1, "transferencia", "en_revision", 100, none, "u"⟩))
    ∧ rejectAction exPayOpen 1 = (some .soloEnRevision, exPayOpen) := by
  have h1 := payment_transitions_spec exPayOpen 1
    ⟨1, 1, "transferencia", "pendiente", 100, none, ""⟩ (by decide)
  have h2 := payment_transitions_spec exPayRevision 1
    ⟨1, 1, "transferencia", "en_revision", 100, none, "u"⟩ (by decide)
  refine ⟨?_, ?_, ?_, ?_⟩
  · have h := h1.1 rfl none "u" (by decide)
    exact ⟨h.1, h.2.1⟩
  · have h := h1.2.2.1 (Or.inl rfl)
    exact ⟨h.1, h.2.2.2⟩
  · have h := h2.2.2.2.2.1 rfl
    exact ⟨h.1, h.2.1⟩
  · exact h1.2.2.2.2.2 (by decide)

/-- C4 counterexample: the claim says `reject` succeeds from `pendiente`,
but rejecting a pending payment is refused (only `en_revision` payments can
be rejected) and the state is unchanged. -/
theorem reject_from_pending_cex :
    findPay exPayOpen.pays 1
      = some ⟨1, 1, "transferencia", "pendiente", 100, none, ""⟩
    ∧ rejectAction exPayOpen 1 = (some .soloEnRevision, exPayOpen) :=
  ⟨by decide, by decide⟩

/-- C8: creating a shipment for a `pendiente` order promotes the order to
`procesando`; updating a shipment's status to `en camino` succeeds and
leaves the parent order in `enviado`; updating it to `entregado` leaves the
parent order in `entregado`. -/
theorem shipment_order_side_effects (orders : List Order) (pedidoId newId : Nat)
    (estadoIn : String) (pedido : Order)
    (hord : findOrder orders pedidoId = some pedido) :
    (pedido.estado = "pendiente" →
        shipmentCreate orders pedidoId newId estadoIn
          = .ok (updateOrder orders pedidoId (fun o => { o with estado := "procesando" }),
                 ⟨newId, pedidoId, estadoIn⟩)
        ∧ findOrder
            (updateOrder orders pedidoId (fun o => { o with estado := "procesando" }))
            pedidoId
          = some { pedido with estado := "procesando" })
    ∧ (∀ sh : Shipment, sh.pedidoId = pedidoId →
        (updateStatus sh orders "en camino").1 = none
        ∧ (updateStatus sh orders "en camino").2.1.estado = "en camino"
        ∧ (findOrder (updateStatus sh orders "en camino").2.2 pedidoId).map Order.estado
            = some "enviado")
    ∧ (∀ sh : Shipment, sh.pedidoId = pedidoId →
        (updateStatus sh orders "entregado").1 = none
        ∧ (updateStatus sh orders "entregado").2.1.estado = "entregado"
        ∧ (findOrder (updateStatus sh orders "entregado").2.2 pedidoId).map Order.estado
            = some "entregado") := by
  have hordup : ∀ est : String,
      findOrder (updateOrder orders pedidoId (fun o => { o with estado := est })) pedidoId
        = some { pedido with estado := est } := by
    intro est
    rw [findOrder_updateOrder orders pedidoId
          (fun o => ({ o with estado := est } : Order)) (fun o => rfl), hord]
    rfl
  refine ⟨?_, ?_, ?_⟩
  · intro hp
    have hmem : pedido.estado ∈ estadosEnvio := by simp [estadosEnvio, hp]
    have hbeq : (pedido.estado == "pendiente") = true := by simp [hp]
    constructor
    · unfold shipmentCreate
      rw [hord]
      simp [hmem, hbeq]
    · exact hordup "procesando"
  · intro sh hsid
    have hno : ¬((!(estadosEnvio.contains "en camino")) = true) := by decide
    unfold updateStatus
    rw [hsid, if_neg hno]
    refine ⟨rfl, rfl, ?_⟩
    by_cases hpe : (pedido.estado == "enviado") = true
    · have hpe2 : pedido.estado = "enviado" := by simpa using hpe
      simp [hord, hpe, hpe2]
    · have hpe' : (pedido.estado == "enviado") = false := by simpa using hpe
      simp [hord, hpe', hordup "enviado"]
  · intro sh hsid
    have hno : ¬((!(estadosEnvio.contains "entregado")) = true) := by decide
    unfold updateStatus
    rw [hsid, if_neg hno]
    refine ⟨rfl, rfl, ?_⟩
    by_cases hpe : (pedido.estado == "entregado") = true
    · have hpe2 : pedido.estado = "entregado" := by simpa using hpe
      simp [hord, hpe, hpe2]
    · have hpe' : (pedido.estado == "entregado") = false := by simpa using hpe
      simp [hord, hpe', hordup "entregado"]

/-- Witness for `shipment_order_side_effects` on a single pending order. -/
theorem shipment_order_side_effects_witness :
    shipmentCreate exOrdersPend 1 3 "pendiente"
      = .ok (updateOrder exOrdersPend 1 (fun o => { o with estado := "procesando" }),
             ⟨3, 1, "pendiente"⟩)
    ∧ ((updateStatus ⟨3, 1, "preparando"⟩ exOrdersPend "en camino").1 = none
      ∧ (findOrder (updateStatus ⟨3, 1, "preparando"⟩ exOrdersPend "en camino").2.2 1).map
          Order.estado = some "enviado")
    ∧ (findOrder (updateStatus ⟨3, 1, "preparando"⟩ exOrdersPend "entregado").2.2 1).map
        Order.estado = some "entregado" := by
  have h := shipment_order_side_effects exOrdersPend 1 3 "pendiente"
    ⟨1, "pendiente", 100, "d"⟩ (by decide)
  refine ⟨(h.1 rfl).1, ?_, ?_⟩
  · have h2 := h.2.1 ⟨3, 1, "preparando"⟩ rfl
    exact ⟨h2.1, h2.2.2⟩
  · exact (h.2.2 ⟨3, 1, "preparando"⟩ rfl).2.2

/-- C9 (amended): `update_status` accepts any target state in the valid list
regardless of the shipment's current state — no monotonicity is enforced, so
backward transitions are permitted. -/
theorem shipment_update_status_any_state (sh : Shipment) (orders : List Order)
    (nuevo : String) (hvalid : estadosEnvio.contains nuevo = true) :
    (updateStatus sh orders nuevo).1 = none
    ∧ (updateStatus sh orders nuevo).2.1.estado = nuevo := by
  unfold updateStatus
  rw [if_neg (show ¬((!(estadosEnvio.contains nuevo)) = true) by rw [hvalid]; simp)]
  exact ⟨rfl, rfl⟩

/-- Witness for `shipment_update_status_any_state`: a delivered shipment is
reset to `preparando`. -/
theorem shipment_update_status_any_state_witness :
    (updateStatus exShipEntregado exOrdersEntregado "preparando").1 = none
    ∧ (updateStatus exShipEntregado exOrdersEntregado "preparando").2.1.estado
        = "preparando" :=
  shipment_update_status_any_state exShipEntregado exOrdersEntregado "preparando"
    (by decide)

/-- C9 counterexample: a shipment already `entregado` (the last state of the
chain) is moved back to `pendiente` (the first) by an accepted update-status
call, refuting monotonicity as claimed. -/
theorem shipment_backward_transition_cex :
    exShipEntregado.estado = "entregado"
    ∧ updateStatus exShipEntregado exOrdersEntregado "pendiente"
        = (none, ⟨1, 1, "pendiente"⟩, exOrdersEntregado) :=
  ⟨rfl, by decide⟩

end Relojes
